import Mathlib

/-!
Verification development for the spendlist-api backend
(controllers/user.js and controllers/expense.js).

The persistent identity store (mongoose `User` documents) is embedded as a
list of `User` records; `findOne`/`findById`/`save` are embedded as list
operations.  A save against the store may fail, so every operation that
persists takes an oracle telling which save attempts succeed.  HTTP
responses (`res.redirect` after `req.flash`, `res.status(..).json(..)`)
are recorded in order in a `Resp` list; a JavaScript `TypeError` thrown in
a callback (for example dereferencing a `null` query result) is recorded
by the `crashed` flag, after which nothing further runs.
-/

/-- Profile subdocument of a `User`; only the display name is relevant to
the expense label.  `name` is `none` when the field is undefined. -/
structure Profile where
  name : Option String
deriving DecidableEq

/-- Identity record of the store (`models/User`), restricted to the fields
the family-sharing core reads and writes.  `familyMembers` and
`familyMemberRequests` hold identity ids (ObjectIds embedded as `Nat`). -/
structure User where
  id : Nat
  email : String
  profile : Option Profile
  familyMembers : List Nat
  familyMemberRequests : List Nat
deriving DecidableEq

/-- `User.findOne({ email })`: first stored record with the given email. -/
def findOneByEmail (db : List User) (email : String) : Option User :=
  match db with
  | [] => none
  | u :: rest => if u.email = email then some u else findOneByEmail rest email

/-- `User.findById(id)`: first stored record with the given id. -/
def findById (db : List User) (i : Nat) : Option User :=
  match db with
  | [] => none
  | u :: rest => if u.id = i then some u else findById rest i

/-- `doc.save()` on an identity document: the stored record with the
document's id is replaced by the document. -/
def saveUser (db : List User) (u : User) : List User :=
  db.map (fun v => if v.id = u.id then u else v)

/-- A JavaScript request-body value, as `approveFamily` inspects it:
`typeof x === 'undefined'`, strict comparison with the strings `'true'`
and `'false'`, or any other value (for example a JSON boolean). -/
inductive JsVal where
  | undef
  | str (s : String)
  | bool (b : Bool)
deriving DecidableEq

/-- Everything the controllers send back to the caller, in order. -/
inductive Resp where
  | errorValidation
  | errorNotFound
  | errorAlready
  | errorRequest
  | errorSave
  | successRequestSent
  | successApproved
  | infoRejected
  | expValidation400
  | expSaveErr500
  | expOk200
deriving DecidableEq

/-- Result of a family-relationship operation: the store afterwards, the
responses sent (in order), and whether the callback chain threw. -/
structure FamilyResult where
  db : List User
  responses : List Resp
  crashed : Bool
deriving DecidableEq

/-- `POST /account/addfamily` (`addFamily` in controllers/user.js).
`requesterId` is `req.user.id`; `emailValid` is the outcome of the
`req.assert('email').isEmail()` validator (an external collaborator);
`saveOk` tells whether the single `user.save` call succeeds. -/
def addFamily (db : List User) (requesterId : Nat) (email : String)
    (emailValid : Bool) (saveOk : Bool) : FamilyResult :=
  if emailValid = false then
    { db := db, responses := [Resp.errorValidation], crashed := false }
  else
    match findOneByEmail db email with
    | none =>
        { db := db, responses := [Resp.errorNotFound], crashed := false }
    | some user =>
        if requesterId ∉ user.familyMembers ∧
            requesterId ∉ user.familyMemberRequests then
          let user1 : User :=
            { user with
              familyMemberRequests := user.familyMemberRequests ++ [requesterId] }
          if saveOk then
            { db := saveUser db user1,
              responses := [Resp.successRequestSent], crashed := false }
          else
            { db := db, responses := [Resp.errorSave], crashed := false }
        else
          { db := db, responses := [Resp.errorAlready], crashed := false }

/-- `POST /account/approvefamily` (`approveFamily` in controllers/user.js).
`callerId` is `req.user.id`, `email` is `req.body.email` (the other
identity), `approve` is `req.body.approve`.  `saveOk n` tells whether the
n-th `save` call of this request succeeds.  The `typeof approve ===
'undefined'` branch calls `handleError` WITHOUT returning, so execution
continues past the error response; a `findOne` miss leaves `user` null and
the subsequent `user.id` access throws. -/
def approveFamily (db : List User) (callerId : Nat) (email : String)
    (approve : JsVal) (saveOk : Nat → Bool) : FamilyResult :=
  let pre : List Resp :=
    if approve = JsVal.undef then [Resp.errorRequest] else []
  match findOneByEmail db email with
  | none =>
      { db := db, responses := pre, crashed := true }
  | some user =>
      if approve = JsVal.str "true" then
        let user1 : User :=
          if callerId ∈ user.familyMembers then user
          else { user with familyMembers := user.familyMembers ++ [callerId] }
        if saveOk 0 = false then
          { db := db, responses := pre ++ [Resp.errorSave], crashed := false }
        else
          let db1 := saveUser db user1
          match findById db1 callerId with
          | none =>
              { db := db1, responses := pre, crashed := true }
          | some me =>
              let me1 : User :=
                { me with
                  familyMembers :=
                    if user.id ∈ me.familyMembers then me.familyMembers
                    else me.familyMembers ++ [user.id],
                  familyMemberRequests :=
                    me.familyMemberRequests.filter (fun x => decide (x ≠ user.id)) }
              if saveOk 1 = false then
                { db := db1, responses := pre ++ [Resp.errorSave],
                  crashed := false }
              else
                { db := saveUser db1 me1,
                  responses := pre ++ [Resp.successApproved], crashed := false }
      else if approve = JsVal.str "false" then
        match findById db callerId with
        | none =>
            { db := db, responses := pre, crashed := true }
        | some me =>
            let me1 : User :=
              { me with
                familyMemberRequests :=
                  me.familyMemberRequests.filter (fun x => decide (x ≠ user.id)) }
            if saveOk 0 = false then
              { db := db, responses := pre ++ [Resp.errorSave], crashed := false }
            else
              { db := saveUser db me1,
                responses := pre ++ [Resp.infoRejected], crashed := false }
      else
        { db := db, responses := pre, crashed := false }

/-- Expense record (`models/Expense`), restricted to the fields the
controllers touch.  `user_id` is the owner's identity id; `date` and
`updatedAt` are timestamps embedded as `Nat` (`date` is the value the
`moment` collaborator parsed from the posted string). -/
structure Expense where
  user_id : Nat
  amount : String
  date : Nat
  updatedAt : Nat
  category : String
  currency : String
  comment : Option String
deriving DecidableEq

/-- The comparison behind `.sort({ date: -1, updatedAt: -1 })`:
`a` may precede `b` when `a` has the later date, or the same date and the
later (or equal) last-modified stamp. -/
def expLE (a b : Expense) : Bool :=
  decide (b.date < a.date ∨ (a.date = b.date ∧ b.updatedAt ≤ a.updatedAt))

/-- Insert an expense into a list already ordered by `expLE`. -/
def insertExp (a : Expense) : List Expense → List Expense
  | [] => [a]
  | b :: l => if expLE a b then a :: b :: l else b :: insertExp a l

/-- The store's `.sort({ date: -1, updatedAt: -1 })` on a query result:
some ordering of the list by `expLE`. -/
def sortExpenses : List Expense → List Expense
  | [] => []
  | a :: l => insertExp a (sortExpenses l)

/-- An expense whose `user_id` has been populated with the owner's
identity document (`.populate('user_id')`). -/
structure PopExpense where
  exp : Expense
  owner : User
deriving DecidableEq

/-- `.populate('user_id')` on one expense: replace the owner id by the
identity document.  A dangling reference populates to null, which the
formatter then dereferences, so it is `none` here. -/
def populate (db : List User) (e : Expense) : Option PopExpense :=
  match findById db e.user_id with
  | some u => some { exp := e, owner := u }
  | none => none

/-- Populate a whole query result, crashing (`none`) if any owner
document is missing. -/
def populateAll (db : List User) : List Expense → Option (List PopExpense)
  | [] => some []
  | e :: rest =>
      match populate db e, populateAll db rest with
      | some p, some pl => some (p :: pl)
      | _, _ => none

/-- An expense as returned to the caller, with the attached display
label (the `user` field `formatExpenses` adds). -/
structure AnnExpense where
  exp : Expense
  owner : User
  user : String
deriving DecidableEq

/-- `(el.user_id.profile && el.user_id.profile.name) || el.user_id.email`:
the owner's profile name unless the profile or the name is undefined or
the name is the empty string (falsy), in which case the email. -/
def displayLabel (u : User) : String :=
  match u.profile with
  | none => u.email
  | some p =>
      match p.name with
      | none => u.email
      | some n => if n = "" then u.email else n

/-- `formatExpenses` in controllers/expense.js: attach a display label to
each populated expense; the label is overridden to "Me" when the owner
document's id equals the viewer's id. -/
def formatExpenses (l : List PopExpense) (userId : Nat) : List AnnExpense :=
  l.map (fun el =>
    let base := displayLabel el.owner
    { exp := el.exp, owner := el.owner,
      user := if el.owner.id = userId then "Me" else base })

/-- `{viewerId} ∪ viewer.familyMembers`, exactly the `$in` array
`[ObjectId(req.user.id), ...req.user.familyMembers]` of `getExpenses`. -/
def visibleOwners (viewer : User) : List Nat :=
  viewer.id :: viewer.familyMembers

/-- `GET /expenses` (`getExpenses` in controllers/expense.js): filter the
expense store to owners in the `$in` array, sort date-descending with
updatedAt tiebreak, populate owners and attach display labels.  `none`
models the formatter throwing on a dangling owner reference. -/
def getExpenses (db : List User) (expenses : List Expense) (viewer : User) :
    Option (List AnnExpense) :=
  let vis := expenses.filter (fun e => decide (e.user_id ∈ visibleOwners viewer))
  match populateAll db (sortExpenses vis) with
  | some pl => some (formatExpenses pl viewer.id)
  | none => none

/-- Request body of `POST /expense/add`.  `user_id` is an owner field a
caller might try to smuggle in; the controller never reads it. -/
structure ExpBody where
  amount : Option String
  date : Option String
  category : Option String
  currency : Option String
  comment : Option String
  user_id : Option Nat
deriving DecidableEq

/-- `req.assert(field).notEmpty()` fails when the field is absent or the
empty string. -/
def isBlank : Option String → Bool
  | none => true
  | some s => s = ""

/-- The expense document `postExpense` constructs: every field comes from
the request body except `user_id`, which is always the authenticated
caller's id.  `parseDate` is the `moment(.., 'DD-MM-YYYY')` collaborator
and `now` the timestamp the store assigns to `updatedAt`. -/
def mkExpense (callerId : Nat) (body : ExpBody) (parseDate : String → Nat)
    (now : Nat) : Expense :=
  { user_id := callerId,
    amount := body.amount.getD "",
    date := parseDate (body.date.getD ""),
    updatedAt := now,
    category := body.category.getD "",
    currency := body.currency.getD "",
    comment := body.comment }

/-- Result of `postExpense`: the expense store afterwards and the
responses sent, in order. -/
structure ExpResult where
  db : List Expense
  responses : List Resp
deriving DecidableEq

/-- `POST /expense/add` (`postExpense` in controllers/expense.js, API
variant).  On validation failure it responds 400 and saves nothing.  On a
save failure it responds 500 and then, because the error branch does not
return, still responds 200 with the unsaved document. -/
def postExpense (edb : List Expense) (callerId : Nat) (body : ExpBody)
    (parseDate : String → Nat) (now : Nat) (saveOk : Bool) : ExpResult :=
  if isBlank body.amount || isBlank body.date ||
      isBlank body.category || isBlank body.currency then
    { db := edb, responses := [Resp.expValidation400] }
  else
    let expense := mkExpense callerId body parseDate now
    if saveOk then
      { db := edb ++ [expense], responses := [Resp.expOk200] }
    else
      { db := edb, responses := [Resp.expSaveErr500, Resp.expOk200] }

/-- A record returned by `findById` carries the id that was looked up. -/
theorem findById_some_id {db : List User} {i : Nat} {u : User}
    (h : findById db i = some u) : u.id = i := by
  induction db with
  | nil => simp [findById] at h
  | cons v l ih =>
      by_cases hv : v.id = i
      · simp [findById, hv] at h
        rw [← h, hv]
      · simp [findById, hv] at h
        exact ih h

/-- A record returned by `findById` is in the store. -/
theorem mem_of_findById {db : List User} {i : Nat} {u : User}
    (h : findById db i = some u) : u ∈ db := by
  induction db with
  | nil => simp [findById] at h
  | cons v l ih =>
      by_cases hv : v.id = i
      · simp [findById, hv] at h
        simp [h]
      · simp [findById, hv] at h
        exact List.mem_cons_of_mem v (ih h)

/-- A record returned by `findOneByEmail` is in the store. -/
theorem mem_of_findOneByEmail {db : List User} {e : String} {u : User}
    (h : findOneByEmail db e = some u) : u ∈ db := by
  induction db with
  | nil => simp [findOneByEmail] at h
  | cons v l ih =>
      by_cases hv : v.email = e
      · simp [findOneByEmail, hv] at h
        simp [h]
      · simp [findOneByEmail, hv] at h
        exact List.mem_cons_of_mem v (ih h)

/-- Saving one record does not disturb lookups of a different id. -/
theorem findById_saveUser_ne {db : List User} {u : User} {i : Nat}
    (h : ¬ u.id = i) : findById (saveUser db u) i = findById db i := by
  induction db with
  | nil => rfl
  | cons v l ih =>
      simp only [saveUser, List.map_cons] at ih ⊢
      simp only [findById]
      by_cases hv : v.id = u.id
      · have hvi : ¬ v.id = i := by rw [hv]; exact h
        rw [if_pos hv, if_neg h, if_neg hvi]
        exact ih
      · rw [if_neg hv]
        by_cases hvi : v.id = i
        · rw [if_pos hvi, if_pos hvi]
        · rw [if_neg hvi, if_neg hvi]
          exact ih

/-- After saving a record, looking its id up yields the saved version,
provided some record with that id was stored. -/
theorem findById_saveUser_self {db : List User} {u : User} {i : Nat}
    (hui : u.id = i) (hex : ∃ v ∈ db, v.id = i) :
    findById (saveUser db u) i = some u := by
  induction db with
  | nil => simp at hex
  | cons v l ih =>
      by_cases hv : v.id = u.id
      · have hvi : v.id = i := by rw [hv]; exact hui
        simp [saveUser, findById, hv, hui]
      · have hvi : ¬ v.id = i := by rw [hui] at hv; exact hv
        simp [saveUser, findById, hv, hvi]
        rcases hex with ⟨w, hw, hwi⟩
        rcases List.mem_cons.mp hw with hwv | hwl
        · rw [hwv] at hwi; exact absurd hwi hvi
        · exact ih ⟨w, hwl, hwi⟩

/-- A record that does not carry the saved id survives a save
unchanged. -/
theorem mem_saveUser_of_ne {db : List User} {u v : User}
    (hv : v ∈ db) (h : ¬ v.id = u.id) : v ∈ saveUser db u := by
  have : (if v.id = u.id then u else v) ∈ saveUser db u :=
    List.mem_map_of_mem (fun w => if w.id = u.id then u else w) hv
  rw [if_neg h] at this
  exact this

/-- Saving the unique record with its own id back is the identity on the
store. -/
theorem saveUser_eq_self {db : List User} {u : User}
    (h : ∀ v ∈ db, v.id = u.id → v = u) : saveUser db u = db := by
  induction db with
  | nil => rfl
  | cons v l ih =>
      have hl : ∀ w ∈ l, w.id = u.id → w = u := by
        intro w hw; exact h w (List.mem_cons_of_mem v hw)
      have ihl := ih hl
      simp only [saveUser, List.map_cons] at ihl ⊢
      by_cases hv : v.id = u.id
      · have hvu : v = u := h v (List.mem_cons_self v l) hv
        simp [hv, hvu, ihl]
      · simp [hv, ihl]

/-- Filtering out an absent element changes nothing. -/
theorem filter_ne_of_not_mem {l : List Nat} {x : Nat} (h : x ∉ l) :
    l.filter (fun y => decide (y ≠ x)) = l := by
  apply List.filter_eq_self.mpr
  intro y hy
  simp
  intro he
  rw [he] at hy
  exact h hy

/-- Unfolding of the boolean sort comparison. -/
theorem expLE_eq_true {a b : Expense} :
    expLE a b = true ↔
      (b.date < a.date ∨ (a.date = b.date ∧ b.updatedAt ≤ a.updatedAt)) := by
  simp [expLE]

/-- The sort comparison is total. -/
theorem expLE_total (a b : Expense) : expLE a b = true ∨ expLE b a = true := by
  simp only [expLE_eq_true]
  omega

/-- The sort comparison is transitive. -/
theorem expLE_trans {a b c : Expense} (h1 : expLE a b = true)
    (h2 : expLE b c = true) : expLE a c = true := by
  simp only [expLE_eq_true] at h1 h2 ⊢
  omega

/-- Membership over insertion. -/
theorem mem_insertExp {a x : Expense} {l : List Expense} :
    x ∈ insertExp a l ↔ x = a ∨ x ∈ l := by
  induction l with
  | nil => simp [insertExp]
  | cons b l ih =>
      by_cases hb : expLE a b = true
      · simp [insertExp, hb]
      · simp [insertExp, hb, ih]
        tauto

/-- The sort is a permutation as far as membership goes. -/
theorem mem_sortExpenses {x : Expense} {l : List Expense} :
    x ∈ sortExpenses l ↔ x ∈ l := by
  induction l with
  | nil => simp [sortExpenses]
  | cons a l ih =>
      simp [sortExpenses, mem_insertExp, ih]

/-- Insertion preserves orderedness. -/
theorem pairwise_insertExp {a : Expense} {l : List Expense}
    (h : l.Pairwise (fun x y => expLE x y = true)) :
    (insertExp a l).Pairwise (fun x y => expLE x y = true) := by
  induction l with
  | nil => simp [insertExp]
  | cons b l ih =>
      rcases List.pairwise_cons.mp h with ⟨hb, hl⟩
      by_cases hab : expLE a b = true
      · simp only [insertExp, hab, if_pos]
        refine List.pairwise_cons.mpr ⟨?_, h⟩
        intro z hz
        rcases List.mem_cons.mp hz with hzb | hzl
        · rw [hzb]; exact hab
        · exact expLE_trans hab (hb z hzl)
      · simp only [insertExp, hab]
        rw [if_neg (by simp [hab])]
        refine List.pairwise_cons.mpr ⟨?_, ih hl⟩
        intro z hz
        rcases mem_insertExp.mp hz with hza | hzl
        · rw [hza]
          rcases expLE_total a b with htot | htot
          · exact absurd htot hab
          · exact htot
        · exact hb z hzl

/-- The sorted query result is ordered by the comparison. -/
theorem pairwise_sortExpenses (l : List Expense) :
    (sortExpenses l).Pairwise (fun x y => expLE x y = true) := by
  induction l with
  | nil => simp [sortExpenses]
  | cons a l ih => exact pairwise_insertExp ih

/-- Populating preserves the underlying expenses, in order. -/
theorem populateAll_map_exp {db : List User} {xs : List Expense}
    {pl : List PopExpense} (h : populateAll db xs = some pl) :
    pl.map (fun p => p.exp) = xs := by
  induction xs generalizing pl with
  | nil =>
      simp [populateAll] at h
      simp [← h]
  | cons e rest ih =>
      simp only [populateAll] at h
      cases hp : populate db e with
      | none => rw [hp] at h; simp at h
      | some p =>
          rw [hp] at h
          cases hr : populateAll db rest with
          | none => rw [hr] at h; simp at h
          | some pl0 =>
              rw [hr] at h
              simp at h
              have hexp : p.exp = e := by
                simp only [populate] at hp
                cases hf : findById db e.user_id with
                | none => rw [hf] at hp; simp at hp
                | some u => rw [hf] at hp; simp at hp; rw [← hp]
              rw [← h]
              simp [hexp, ih hr]

/-- Each populated owner document is the stored record the expense's
owner id looks up to. -/
theorem populateAll_owner {db : List User} {xs : List Expense}
    {pl : List PopExpense} (h : populateAll db xs = some pl) :
    ∀ p ∈ pl, findById db p.exp.user_id = some p.owner := by
  induction xs generalizing pl with
  | nil =>
      simp [populateAll] at h
      intro p hp
      rw [h] at hp
      simp at hp
  | cons e rest ih =>
      simp only [populateAll] at h
      cases hp : populate db e with
      | none => rw [hp] at h; simp at h
      | some p =>
          rw [hp] at h
          cases hr : populateAll db rest with
          | none => rw [hr] at h; simp at h
          | some pl0 =>
              rw [hr] at h
              simp at h
              intro q hq
              rw [← h] at hq
              rcases List.mem_cons.mp hq with hqp | hql
              · simp only [populate] at hp
                cases hf : findById db e.user_id with
                | none => rw [hf] at hp; simp at hp
                | some u =>
                    rw [hf] at hp
                    simp at hp
                    rw [hqp, ← hp]
                    exact hf
              · exact ih hr q hql

/-- C10: when `req.body.approve` is present but is neither the string
`'true'` nor the string `'false'` (for example a JSON boolean), and the
email does look an identity up, `approveFamily` falls through both
branches: the store is untouched and no response of any kind is sent. -/
theorem approveFamily_fallthrough (db : List User) (callerId : Nat)
    (email : String) (approve : JsVal) (saveOk : Nat → Bool) (user : User)
    (hfind : findOneByEmail db email = some user)
    (h1 : approve ≠ JsVal.undef) (h2 : approve ≠ JsVal.str "true")
    (h3 : approve ≠ JsVal.str "false") :
    approveFamily db callerId email approve saveOk =
      { db := db, responses := [], crashed := false } := by
  simp [approveFamily, hfind, h1, h2, h3]

/-- C10 witness: the JSON boolean `true` (which is not the string
`'true'`) makes `approveFamily` terminate without mutating anything and
without responding. -/
theorem approveFamily_fallthrough_witness :
    approveFamily
      [{ id := 1, email := "a@x", profile := none, familyMembers := [],
         familyMemberRequests := [2] }]
      1 "a@x" (JsVal.bool true) (fun _ => true) =
      { db := [{ id := 1, email := "a@x", profile := none,
                 familyMembers := [], familyMemberRequests := [2] }],
        responses := [], crashed := false } :=
  approveFamily_fallthrough
    [{ id := 1, email := "a@x", profile := none, familyMembers := [],
       familyMemberRequests := [2] }]
    1 "a@x" (JsVal.bool true) (fun _ => true)
    { id := 1, email := "a@x", profile := none, familyMembers := [],
      familyMemberRequests := [2] }
    (by decide) (by decide) (by decide) (by decide)

/-- C5: when no stored identity carries the posted email, `approveFamily`
leaves every record unchanged but, lacking the null check `addFamily`
has, it dereferences the null query result and throws instead of
reporting a NotFound outcome: no response at all reaches the caller. -/
theorem approveFamily_missing_requester_crashes :
    approveFamily
      [{ id := 1, email := "a@x", profile := none, familyMembers := [],
         familyMemberRequests := [2] }]
      1 "ghost@x" (JsVal.str "true") (fun _ => true) =
      { db := [{ id := 1, email := "a@x", profile := none,
                 familyMembers := [], familyMemberRequests := [2] }],
        responses := [], crashed := true } := by
  decide

/-- C3: the two approval writes are not atomic.  With identities 1 and 2
stored, caller 1 approving 2, and the store accepting the first save but
failing the second, the operation ends with 1 recorded in 2's
familyMembers while 2 is absent from 1's: an asymmetric graph survives
the reported fault. -/
theorem approveFamily_partial_write :
    (approveFamily
        [{ id := 1, email := "a@x", profile := none, familyMembers := [],
           familyMemberRequests := [2] },
         { id := 2, email := "b@x", profile := none, familyMembers := [],
           familyMemberRequests := [] }]
        1 "b@x" (JsVal.str "true") (fun n => n == 0)) =
      { db :=
          [{ id := 1, email := "a@x", profile := none, familyMembers := [],
             familyMemberRequests := [2] },
           { id := 2, email := "b@x", profile := none, familyMembers := [1],
             familyMemberRequests := [] }],
        responses := [Resp.errorSave], crashed := false } ∧
    (1 ∈ [1] ∧ (2 : Nat) ∉ ([] : List Nat)) := by
  decide

/-- C9: fault paths do not abort.  `postExpense` whose save fails sends
the 500 error and then still sends a 200 with the unsaved document; and
`approveFamily` called without an approve flag signals its error response
yet keeps executing, here crashing on the subsequent null lookup. -/
theorem fault_paths_continue :
    (postExpense [] 7
        { amount := some "10", date := some "01-01-2024",
          category := some "food", currency := some "c1", comment := none,
          user_id := none }
        (fun _ => 0) 0 false).responses =
      [Resp.expSaveErr500, Resp.expOk200] ∧
    approveFamily
        [{ id := 1, email := "a@x", profile := none, familyMembers := [],
           familyMemberRequests := [] }]
        1 "ghost@x" JsVal.undef (fun _ => true) =
      { db := [{ id := 1, email := "a@x", profile := none,
                 familyMembers := [], familyMemberRequests := [] }],
        responses := [Resp.errorRequest], crashed := true } := by
  decide

/-- C4: a repeated link request is rejected.  When the requester already
appears in the target's familyMembers or familyMemberRequests,
`addFamily` answers with the already-linked error and the store is
untouched; otherwise it appends the requester to the target's
familyMemberRequests and persists exactly that. -/
theorem addFamily_duplicate_request (db : List User) (requesterId : Nat)
    (email : String) (target : User)
    (hfind : findOneByEmail db email = some target) :
    ((requesterId ∈ target.familyMembers ∨
        requesterId ∈ target.familyMemberRequests) →
      addFamily db requesterId email true true =
        { db := db, responses := [Resp.errorAlready], crashed := false }) ∧
    ((requesterId ∉ target.familyMembers ∧
        requesterId ∉ target.familyMemberRequests) →
      addFamily db requesterId email true true =
        { db := saveUser db
            { target with familyMemberRequests :=
                target.familyMemberRequests ++ [requesterId] },
          responses := [Resp.successRequestSent], crashed := false }) := by
  constructor
  · intro h
    have hcond : ¬ (requesterId ∉ target.familyMembers ∧
        requesterId ∉ target.familyMemberRequests) := by tauto
    simp [addFamily, hfind, hcond]
  · intro h
    simp [addFamily, hfind, h]

/-- C4 witness: with identity 9 already pending on identity 2's record, a
second request from 9 errors and changes nothing; a fresh request from 8
is appended. -/
theorem addFamily_duplicate_request_witness :
    ((9 ∈ ([] : List Nat) ∨ 9 ∈ [9]) →
      addFamily
        [{ id := 2, email := "b@x", profile := none, familyMembers := [],
           familyMemberRequests := [9] }]
        9 "b@x" true true =
        { db := [{ id := 2, email := "b@x", profile := none,
                   familyMembers := [], familyMemberRequests := [9] }],
          responses := [Resp.errorAlready], crashed := false }) ∧
    ((9 ∉ ([] : List Nat) ∧ 9 ∉ [9]) →
      addFamily
        [{ id := 2, email := "b@x", profile := none, familyMembers := [],
           familyMemberRequests := [9] }]
        9 "b@x" true true =
        { db := saveUser
            [{ id := 2, email := "b@x", profile := none,
               familyMembers := [], familyMemberRequests := [9] }]
            { id := 2, email := "b@x", profile := none, familyMembers := [],
              familyMemberRequests := [9, 9] },
          responses := [Resp.successRequestSent], crashed := false }) :=
  addFamily_duplicate_request
    [{ id := 2, email := "b@x", profile := none, familyMembers := [],
       familyMemberRequests := [9] }]
    9 "b@x"
    { id := 2, email := "b@x", profile := none, familyMembers := [],
      familyMemberRequests := [9] }
    (by decide)

/-- C6: rejecting only removes the pending request.  With the requester
identity found by email and the caller's record present, `approveFamily`
with `'false'` persists the caller's record with the requester's id
filtered out of familyMemberRequests — familyMembers untouched, no other
record touched — and when no such pending request exists (on a store
whose one record with the caller's id is the caller), it is a successful
no-op, not a fault. -/
theorem approveFamily_reject_frame (db : List User) (callerId : Nat)
    (email : String) (user me : User)
    (hfind : findOneByEmail db email = some user)
    (hme : findById db callerId = some me) :
    (approveFamily db callerId email (JsVal.str "false") (fun _ => true) =
      { db := saveUser db
          { me with familyMemberRequests :=
              me.familyMemberRequests.filter (fun x => decide (x ≠ user.id)) },
        responses := [Resp.infoRejected], crashed := false }) ∧
    ({ me with familyMemberRequests :=
        me.familyMemberRequests.filter (fun x => decide (x ≠ user.id)) :
        User }).familyMembers = me.familyMembers ∧
    (user.id ∉ me.familyMemberRequests →
      (∀ v ∈ db, v.id = callerId → v = me) →
      approveFamily db callerId email (JsVal.str "false") (fun _ => true) =
        { db := db, responses := [Resp.infoRejected], crashed := false }) := by
  have hmain :
      approveFamily db callerId email (JsVal.str "false") (fun _ => true) =
        { db := saveUser db
            { me with familyMemberRequests :=
                me.familyMemberRequests.filter (fun x => decide (x ≠ user.id)) },
          responses := [Resp.infoRejected], crashed := false } := by
    simp [approveFamily, hfind, hme]
  refine ⟨hmain, rfl, ?_⟩
  intro hnot huniq
  rw [hmain]
  have hfil := filter_ne_of_not_mem hnot
  rw [hfil]
  have hsave : saveUser db me = db := by
    apply saveUser_eq_self
    intro v hv hvid
    have hid : me.id = callerId := findById_some_id hme
    exact huniq v hv (by rw [hvid, hid])
  have hme_eta : ({ me with familyMemberRequests := me.familyMemberRequests :
      User }) = me := rfl
  rw [hme_eta, hsave]

/-- C6 witness: identity 5 has no pending request from identity 2;
rejecting is a successful no-op on the store. -/
theorem approveFamily_reject_frame_witness :
    (approveFamily
        [{ id := 5, email := "me@x", profile := none, familyMembers := [2],
           familyMemberRequests := [7] },
         { id := 2, email := "b@x", profile := none, familyMembers := [5],
           familyMemberRequests := [] }]
        5 "b@x" (JsVal.str "false") (fun _ => true) =
      { db := saveUser
          [{ id := 5, email := "me@x", profile := none, familyMembers := [2],
             familyMemberRequests := [7] },
           { id := 2, email := "b@x", profile := none, familyMembers := [5],
             familyMemberRequests := [] }]
          { id := 5, email := "me@x", profile := none, familyMembers := [2],
            familyMemberRequests :=
              [7].filter (fun x => decide (x ≠ 2)) },
        responses := [Resp.infoRejected], crashed := false }) ∧
    ({ id := 5, email := "me@x", profile := none, familyMembers := [2],
       familyMemberRequests := [7].filter (fun x => decide (x ≠ 2)) :
       User }).familyMembers = [2] ∧
    ((2 : Nat) ∉ [7] →
      (∀ v ∈
          ([{ id := 5, email := "me@x", profile := none, familyMembers := [2],
              familyMemberRequests := [7] },
            { id := 2, email := "b@x", profile := none, familyMembers := [5],
              familyMemberRequests := [] }] : List User),
          v.id = 5 → v =
            { id := 5, email := "me@x", profile := none, familyMembers := [2],
              familyMemberRequests := [7] }) →
      approveFamily
          [{ id := 5, email := "me@x", profile := none, familyMembers := [2],
             familyMemberRequests := [7] },
           { id := 2, email := "b@x", profile := none, familyMembers := [5],
             familyMemberRequests := [] }]
          5 "b@x" (JsVal.str "false") (fun _ => true) =
        { db :=
            [{ id := 5, email := "me@x", profile := none, familyMembers := [2],
               familyMemberRequests := [7] },
             { id := 2, email := "b@x", profile := none, familyMembers := [5],
               familyMemberRequests := [] }],
          responses := [Resp.infoRejected], crashed := false }) :=
  approveFamily_reject_frame
    [{ id := 5, email := "me@x", profile := none, familyMembers := [2],
       familyMemberRequests := [7] },
     { id := 2, email := "b@x", profile := none, familyMembers := [5],
       familyMemberRequests := [] }]
    5 "b@x"
    { id := 2, email := "b@x", profile := none, familyMembers := [5],
      familyMemberRequests := [] }
    { id := 5, email := "me@x", profile := none, familyMembers := [2],
      familyMemberRequests := [7] }
    (by decide) (by decide)

/-- C7: `postExpense` validates amount, date, category and currency for
non-blankness; on any failure it responds 400 and persists nothing.
Otherwise the stored document's user_id is the authenticated caller's id,
whatever owner field the body carried (the body's user_id never
influences the result), and on a successful save exactly the constructed
document is appended. -/
theorem postExpense_validation_owner (edb : List Expense) (callerId : Nat)
    (body : ExpBody) (parseDate : String → Nat) (now : Nat) (saveOk : Bool) :
    ((isBlank body.amount || isBlank body.date || isBlank body.category ||
        isBlank body.currency) = true →
      postExpense edb callerId body parseDate now saveOk =
        { db := edb, responses := [Resp.expValidation400] }) ∧
    ((isBlank body.amount || isBlank body.date || isBlank body.category ||
        isBlank body.currency) = false →
      (mkExpense callerId body parseDate now).user_id = callerId ∧
      (∀ o, postExpense edb callerId { body with user_id := o } parseDate now
          saveOk = postExpense edb callerId body parseDate now saveOk) ∧
      (saveOk = true →
        postExpense edb callerId body parseDate now saveOk =
          { db := edb ++ [mkExpense callerId body parseDate now],
            responses := [Resp.expOk200] })) := by
  constructor
  · intro h
    simp [postExpense, h]
  · intro h
    refine ⟨rfl, fun o => rfl, ?_⟩
    intro hs
    simp [postExpense, h, hs]

/-- C7 witness: a blank category is rejected with nothing stored, and a
fully valid body is stored under caller 7's id regardless of the body
claiming owner 99. -/
theorem postExpense_validation_owner_witness :
    ((isBlank (some "10") || isBlank (some "01-01-2024") ||
        isBlank (some "") || isBlank (some "c1")) = true →
      postExpense [] 7
          { amount := some "10", date := some "01-01-2024",
            category := some "", currency := some "c1", comment := none,
            user_id := some 99 }
          (fun _ => 3) 5 true =
        { db := [], responses := [Resp.expValidation400] }) ∧
    ((isBlank (some "10") || isBlank (some "01-01-2024") ||
        isBlank (some "") || isBlank (some "c1")) = false →
      (mkExpense 7
          { amount := some "10", date := some "01-01-2024",
            category := some "", currency := some "c1", comment := none,
            user_id := some 99 }
          (fun _ => 3) 5).user_id = 7 ∧
      (∀ o, postExpense [] 7
          { amount := some "10", date := some "01-01-2024",
            category := some "", currency := some "c1", comment := none,
            user_id := o }
          (fun _ => 3) 5 true =
        postExpense [] 7
          { amount := some "10", date := some "01-01-2024",
            category := some "", currency := some "c1", comment := none,
            user_id := some 99 }
          (fun _ => 3) 5 true) ∧
      (true = true →
        postExpense [] 7
            { amount := some "10", date := some "01-01-2024",
              category := some "", currency := some "c1", comment := none,
              user_id := some 99 }
            (fun _ => 3) 5 true =
          { db := [mkExpense 7
              { amount := some "10", date := some "01-01-2024",
                category := some "", currency := some "c1", comment := none,
                user_id := some 99 }
              (fun _ => 3) 5],
            responses := [Resp.expOk200] })) :=
  postExpense_validation_owner [] 7
    { amount := some "10", date := some "01-01-2024", category := some "",
      currency := some "c1", comment := none, user_id := some 99 }
    (fun _ => 3) 5 true

/-- C2: `getExpenses` returns exactly the stored expenses whose owner id
lies in `visibleOwners viewer` (the viewer plus the viewer's
familyMembers); the viewer's own id is always in that set, and no
returned expense has an owner outside it. -/
theorem getExpenses_visibleOwners (db : List User) (expenses : List Expense)
    (viewer : User) (l : List AnnExpense) (e : Expense)
    (h : getExpenses db expenses viewer = some l) :
    ((∃ a ∈ l, a.exp = e) ↔
      (e ∈ expenses ∧ e.user_id ∈ visibleOwners viewer)) ∧
    viewer.id ∈ visibleOwners viewer := by
  refine ⟨?_, by simp [visibleOwners]⟩
  simp only [getExpenses] at h
  cases hp : populateAll db (sortExpenses (expenses.filter
      (fun e => decide (e.user_id ∈ visibleOwners viewer)))) with
  | none => rw [hp] at h; simp at h
  | some pl =>
      rw [hp] at h
      simp at h
      have hmap := populateAll_map_exp hp
      have h1 : (∃ a ∈ formatExpenses pl viewer.id, a.exp = e) ↔
          (∃ p ∈ pl, p.exp = e) := by
        simp [formatExpenses]
      have h2 : (∃ p ∈ pl, p.exp = e) ↔
          e ∈ pl.map (fun p => p.exp) := by
        simp [List.mem_map]
      have h4 : e ∈ expenses.filter
          (fun e => decide (e.user_id ∈ visibleOwners viewer)) ↔
          (e ∈ expenses ∧ e.user_id ∈ visibleOwners viewer) := by
        simp [List.mem_filter]
      rw [← h, h1, h2, hmap, mem_sortExpenses, h4]

/-- C2 witness: viewer 1 with family member 2 sees exactly the expenses
owned by 1 or 2; a stranger's expense is excluded. -/
theorem getExpenses_visibleOwners_witness :
    ((∃ a ∈ formatExpenses
        [{ exp := { user_id := 3, amount := "5", date := 4, updatedAt := 0,
                    category := "x", currency := "c", comment := none },
           owner := { id := 3, email := "c@x", profile := none,
                      familyMembers := [], familyMemberRequests := [] } }] 1,
        a.exp = ({ user_id := 9, amount := "1", date := 2, updatedAt := 0,
                   category := "y", currency := "c", comment := none } :
                   Expense)) ↔
      (({ user_id := 9, amount := "1", date := 2, updatedAt := 0,
          category := "y", currency := "c", comment := none } : Expense) ∈
          [({ user_id := 3, amount := "5", date := 4, updatedAt := 0,
              category := "x", currency := "c", comment := none } :
              Expense),
           { user_id := 9, amount := "1", date := 2, updatedAt := 0,
             category := "y", currency := "c", comment := none }] ∧
        (9 : Nat) ∈ visibleOwners
          { id := 1, email := "a@x", profile := none, familyMembers := [3],
            familyMemberRequests := [] })) ∧
    (1 : Nat) ∈ visibleOwners
      { id := 1, email := "a@x", profile := none, familyMembers := [3],
        familyMemberRequests := [] } :=
  getExpenses_visibleOwners
    [{ id := 1, email := "a@x", profile := none, familyMembers := [3],
       familyMemberRequests := [] },
     { id := 3, email := "c@x", profile := none, familyMembers := [],
       familyMemberRequests := [] }]
    [{ user_id := 3, amount := "5", date := 4, updatedAt := 0,
       category := "x", currency := "c", comment := none },
     { user_id := 9, amount := "1", date := 2, updatedAt := 0,
       category := "y", currency := "c", comment := none }]
    { id := 1, email := "a@x", profile := none, familyMembers := [3],
      familyMemberRequests := [] }
    (formatExpenses
      [{ exp := { user_id := 3, amount := "5", date := 4, updatedAt := 0,
                  category := "x", currency := "c", comment := none },
         owner := { id := 3, email := "c@x", profile := none,
                    familyMembers := [], familyMemberRequests := [] } }] 1)
    { user_id := 9, amount := "1", date := 2, updatedAt := 0,
      category := "y", currency := "c", comment := none }
    (by rfl)

/-- C8: the sequence `getExpenses` returns is ordered by expense date
descending with updatedAt-descending tiebreak, and each element's label
is "Me" exactly when its owner id is the viewer's, and otherwise the
owner's profile name with the email as fallback (`displayLabel` of the
stored owner record). -/
theorem getExpenses_sorted_labeled (db : List User) (expenses : List Expense)
    (viewer : User) (l : List AnnExpense)
    (h : getExpenses db expenses viewer = some l) :
    l.Pairwise (fun x y => y.exp.date < x.exp.date ∨
      (x.exp.date = y.exp.date ∧ y.exp.updatedAt ≤ x.exp.updatedAt)) ∧
    ∀ a ∈ l, findById db a.exp.user_id = some a.owner ∧
      a.user =
        (if a.exp.user_id = viewer.id then "Me" else displayLabel a.owner) := by
  simp only [getExpenses] at h
  cases hp : populateAll db (sortExpenses (expenses.filter
      (fun e => decide (e.user_id ∈ visibleOwners viewer)))) with
  | none => rw [hp] at h; simp at h
  | some pl =>
      rw [hp] at h
      simp at h
      have hmap := populateAll_map_exp hp
      have hown := populateAll_owner hp
      constructor
      · have hs := pairwise_sortExpenses (expenses.filter
          (fun e => decide (e.user_id ∈ visibleOwners viewer)))
        rw [← hmap] at hs
        rw [List.pairwise_map] at hs
        rw [← h]
        simp only [formatExpenses]
        rw [List.pairwise_map]
        refine hs.imp ?_
        intro x y hxy
        exact expLE_eq_true.mp hxy
      · intro a ha
        rw [← h] at ha
        simp only [formatExpenses, List.mem_map] at ha
        rcases ha with ⟨x, hx, hfx⟩
        have hxo := hown x hx
        have hid : x.owner.id = x.exp.user_id := findById_some_id hxo
        rw [← hfx]
        simp only []
        refine ⟨hxo, ?_⟩
        rw [← hid]

/-- C8 witness: two expenses sorted date-descending; the viewer's own is
labeled "Me" and the family member's carries that owner's label. -/
theorem getExpenses_sorted_labeled_witness :
    (formatExpenses
        [{ exp := { user_id := 3, amount := "5", date := 4, updatedAt := 0,
                    category := "x", currency := "c", comment := none },
           owner := { id := 3, email := "c@x", profile := none,
                      familyMembers := [], familyMemberRequests := [] } },
         { exp := { user_id := 1, amount := "1", date := 2, updatedAt := 0,
                    category := "y", currency := "c", comment := none },
           owner := { id := 1, email := "a@x", profile := none,
                      familyMembers := [3], familyMemberRequests := [] } }]
        1).Pairwise (fun x y => y.exp.date < x.exp.date ∨
      (x.exp.date = y.exp.date ∧ y.exp.updatedAt ≤ x.exp.updatedAt)) ∧
    ∀ a ∈ formatExpenses
        [{ exp := { user_id := 3, amount := "5", date := 4, updatedAt := 0,
                    category := "x", currency := "c", comment := none },
           owner := { id := 3, email := "c@x", profile := none,
                      familyMembers := [], familyMemberRequests := [] } },
         { exp := { user_id := 1, amount := "1", date := 2, updatedAt := 0,
                    category := "y", currency := "c", comment := none },
           owner := { id := 1, email := "a@x", profile := none,
                      familyMembers := [3], familyMemberRequests := [] } }]
        1,
      findById
        [{ id := 1, email := "a@x", profile := none, familyMembers := [3],
           familyMemberRequests := [] },
         { id := 3, email := "c@x", profile := none, familyMembers := [],
           familyMemberRequests := [] }]
        a.exp.user_id = some a.owner ∧
      a.user = (if a.exp.user_id = 1 then "Me" else displayLabel a.owner) :=
  getExpenses_sorted_labeled
    [{ id := 1, email := "a@x", profile := none, familyMembers := [3],
       familyMemberRequests := [] },
     { id := 3, email := "c@x", profile := none, familyMembers := [],
       familyMemberRequests := [] }]
    [{ user_id := 3, amount := "5", date := 4, updatedAt := 0,
       category := "x", currency := "c", comment := none },
     { user_id := 1, amount := "1", date := 2, updatedAt := 0,
       category := "y", currency := "c", comment := none }]
    { id := 1, email := "a@x", profile := none, familyMembers := [3],
      familyMemberRequests := [] }
    (formatExpenses
      [{ exp := { user_id := 3, amount := "5", date := 4, updatedAt := 0,
                  category := "x", currency := "c", comment := none },
         owner := { id := 3, email := "c@x", profile := none,
                    familyMembers := [], familyMemberRequests := [] } },
       { exp := { user_id := 1, amount := "1", date := 2, updatedAt := 0,
                  category := "y", currency := "c", comment := none },
         owner := { id := 1, email := "a@x", profile := none,
                    familyMembers := [3], familyMemberRequests := [] } }]
      1)
    (by rfl)

/-- C1: approval makes the family edge symmetric without duplicates.
With distinct identities a and b stored, b holding a pending request from
a, and both saves succeeding, `approveFamily` run by a against b's email
ends with a in b's familyMembers and b in a's familyMembers; each side is
appended only when absent, so a member already present is not added
again. -/
theorem approveFamily_symmetric (db : List User) (a b : User)
    (hne : a.id ≠ b.id)
    (hb : findOneByEmail db b.email = some b)
    (ha : findById db a.id = some a)
    (hreq : a.id ∈ b.familyMemberRequests) :
    (approveFamily db a.id b.email (JsVal.str "true")
        (fun _ => true)).crashed = false ∧
    (approveFamily db a.id b.email (JsVal.str "true")
        (fun _ => true)).responses = [Resp.successApproved] ∧
    ∃ b1 a1,
      findById (approveFamily db a.id b.email (JsVal.str "true")
          (fun _ => true)).db b.id = some b1 ∧
      findById (approveFamily db a.id b.email (JsVal.str "true")
          (fun _ => true)).db a.id = some a1 ∧
      a.id ∈ b1.familyMembers ∧ b.id ∈ a1.familyMembers ∧
      b1.familyMembers =
        (if a.id ∈ b.familyMembers then b.familyMembers
         else b.familyMembers ++ [a.id]) ∧
      a1.familyMembers =
        (if b.id ∈ a.familyMembers then a.familyMembers
         else a.familyMembers ++ [b.id]) := by
  have hu1id : (if a.id ∈ b.familyMembers then b
      else { b with familyMembers := b.familyMembers ++ [a.id] } :
      User).id = b.id := by
    by_cases hm : a.id ∈ b.familyMembers <;> simp [hm]
  have hnotu1 : ¬ (if a.id ∈ b.familyMembers then b
      else { b with familyMembers := b.familyMembers ++ [a.id] } :
      User).id = a.id := by
    rw [hu1id]
    exact fun hcon => hne hcon.symm
  have hdb1 : findById (saveUser db (if a.id ∈ b.familyMembers then b
      else { b with familyMembers := b.familyMembers ++ [a.id] })) a.id =
      some a := by
    rw [findById_saveUser_ne hnotu1]
    exact ha
  have key : approveFamily db a.id b.email (JsVal.str "true")
      (fun _ => true) =
      { db := saveUser
          (saveUser db (if a.id ∈ b.familyMembers then b
            else { b with familyMembers := b.familyMembers ++ [a.id] }))
          { a with
            familyMembers :=
              if b.id ∈ a.familyMembers then a.familyMembers
              else a.familyMembers ++ [b.id],
            familyMemberRequests :=
              a.familyMemberRequests.filter (fun x => decide (x ≠ b.id)) },
        responses := [Resp.successApproved], crashed := false } := by
    simp only [approveFamily, hb]
    simp only [reduceCtorEq, if_false, reduceIte]
    rw [hdb1]
    rfl
  have hbmem : b ∈ db := mem_of_findOneByEmail hb
  have hamem : a ∈ db := mem_of_findById ha
  have hnota : ¬ a.id = (if a.id ∈ b.familyMembers then b
      else { b with familyMembers := b.familyMembers ++ [a.id] } :
      User).id := by
    rw [hu1id]
    exact hne
  have haindb1 : a ∈ saveUser db (if a.id ∈ b.familyMembers then b
      else { b with familyMembers := b.familyMembers ++ [a.id] }) :=
    mem_saveUser_of_ne hamem hnota
  have hM1ne : ¬ ({ a with
      familyMembers :=
        if b.id ∈ a.familyMembers then a.familyMembers
        else a.familyMembers ++ [b.id],
      familyMemberRequests :=
        a.familyMemberRequests.filter (fun x => decide (x ≠ b.id)) } :
      User).id = b.id := hne
  have hfb1 : findById (saveUser
      (saveUser db (if a.id ∈ b.familyMembers then b
        else { b with familyMembers := b.familyMembers ++ [a.id] }))
      { a with
        familyMembers :=
          if b.id ∈ a.familyMembers then a.familyMembers
          else a.familyMembers ++ [b.id],
        familyMemberRequests :=
          a.familyMemberRequests.filter (fun x => decide (x ≠ b.id)) })
      b.id = some (if a.id ∈ b.familyMembers then b
        else { b with familyMembers := b.familyMembers ++ [a.id] }) := by
    rw [findById_saveUser_ne hM1ne]
    exact findById_saveUser_self hu1id ⟨b, hbmem, rfl⟩
  have hfa1 : findById (saveUser
      (saveUser db (if a.id ∈ b.familyMembers then b
        else { b with familyMembers := b.familyMembers ++ [a.id] }))
      { a with
        familyMembers :=
          if b.id ∈ a.familyMembers then a.familyMembers
          else a.familyMembers ++ [b.id],
        familyMemberRequests :=
          a.familyMemberRequests.filter (fun x => decide (x ≠ b.id)) })
      a.id = some { a with
        familyMembers :=
          if b.id ∈ a.familyMembers then a.familyMembers
          else a.familyMembers ++ [b.id],
        familyMemberRequests :=
          a.familyMemberRequests.filter (fun x => decide (x ≠ b.id)) } :=
    findById_saveUser_self rfl ⟨a, haindb1, rfl⟩
  rw [key]
  refine ⟨rfl, rfl, ?_⟩
  refine ⟨(if a.id ∈ b.familyMembers then b
      else { b with familyMembers := b.familyMembers ++ [a.id] }),
    { a with
      familyMembers :=
        if b.id ∈ a.familyMembers then a.familyMembers
        else a.familyMembers ++ [b.id],
      familyMemberRequests :=
        a.familyMemberRequests.filter (fun x => decide (x ≠ b.id)) },
    hfb1, hfa1, ?_, ?_, ?_, rfl⟩
  · by_cases hm : a.id ∈ b.familyMembers <;> simp [hm]
  · by_cases hm : b.id ∈ a.familyMembers <;> simp [hm]
  · by_cases hm : a.id ∈ b.familyMembers <;> simp [hm]

/-- C1 witness: identities 1 and 2, with 1 pending on 2's record; after 1
approves 2, both records list each other. -/
theorem approveFamily_symmetric_witness :
    (approveFamily
        [{ id := 1, email := "a@x", profile := none, familyMembers := [],
           familyMemberRequests := [] },
         { id := 2, email := "b@x", profile := none, familyMembers := [],
           familyMemberRequests := [1] }]
        1 "b@x" (JsVal.str "true") (fun _ => true)).crashed = false ∧
    (approveFamily
        [{ id := 1, email := "a@x", profile := none, familyMembers := [],
           familyMemberRequests := [] },
         { id := 2, email := "b@x", profile := none, familyMembers := [],
           familyMemberRequests := [1] }]
        1 "b@x" (JsVal.str "true") (fun _ => true)).responses =
      [Resp.successApproved] ∧
    ∃ b1 a1,
      findById (approveFamily
          [{ id := 1, email := "a@x", profile := none, familyMembers := [],
             familyMemberRequests := [] },
           { id := 2, email := "b@x", profile := none, familyMembers := [],
             familyMemberRequests := [1] }]
          1 "b@x" (JsVal.str "true") (fun _ => true)).db 2 = some b1 ∧
      findById (approveFamily
          [{ id := 1, email := "a@x", profile := none, familyMembers := [],
             familyMemberRequests := [] },
           { id := 2, email := "b@x", profile := none, familyMembers := [],
             familyMemberRequests := [1] }]
          1 "b@x" (JsVal.str "true") (fun _ => true)).db 1 = some a1 ∧
      (1 : Nat) ∈ b1.familyMembers ∧ (2 : Nat) ∈ a1.familyMembers ∧
      b1.familyMembers = (if (1 : Nat) ∈ ([] : List Nat) then ([] : List Nat)
        else [] ++ [1]) ∧
      a1.familyMembers = (if (2 : Nat) ∈ ([] : List Nat) then ([] : List Nat)
        else [] ++ [2]) :=
  approveFamily_symmetric
    [{ id := 1, email := "a@x", profile := none, familyMembers := [],
       familyMemberRequests := [] },
     { id := 2, email := "b@x", profile := none, familyMembers := [],
       familyMemberRequests := [1] }]
    { id := 1, email := "a@x", profile := none, familyMembers := [],
      familyMemberRequests := [] }
    { id := 2, email := "b@x", profile := none, familyMembers := [],
      familyMemberRequests := [1] }
    (by decide) (by decide) (by decide) (by decide)

